import Mathlib

/-!
Verification of the model-conversion utility scripts of the
AI-frame-interpolator-android repository against their specification.

The scripts are glue code around external ML libraries, so the embedding
models each script as a function over an explicit environment that fixes
the outcome of every external call (an exception is represented as
some message, normal return as none) and records, in order, the
externally visible events of the run: filesystem checks and mutations,
backend invocations, and cleanup.  The pure computations of the scripts
(the operator tally of tools/download_film.py, the dynamic-shape scan of
tools/simplify_model.py, the type-mapping shim tables of
tools/onnx_to_tflite.py) are translated directly as computable functions.
-/

namespace Spec2Proof

/-! ## Stage 1 of tools/onnx_to_tflite.py: _convert_onnx_to_saved_model

The function first attempts backend A (onnx2tf): the import statement,
then the conversion call, then the re-rooting of the produced
saved_model directory.  Any exception in that block is caught (import
failures are re-raised as ModuleNotFoundError and caught one level up;
everything else falls into the broad except clause) and the function
falls through to backend B (onnx-tf): importing onnx and onnx_tf,
then load / prepare / export_graph.  An exception in the backend B
block propagates to the caller. -/

/-- Events recorded while stage 1 runs. -/
inductive Ev1 where
  | importA
  | convertA
  | rerootA
  | importB
  | convertB
deriving DecidableEq

/-- Outcomes of the external calls made by stage 1: some msg means the
call raises an exception with that message, none means it returns. -/
structure Stage1Env where
  importAErr : Option String
  convertAErr : Option String
  rerootErr : Option String
  importBErr : Option String
  convertBErr : Option String
deriving DecidableEq

/-- The backend B fallback block: import onnx and onnx_tf.backend, then
onnx.load, prepare and export_graph.  Exceptions here propagate. -/
def backendB (env : Stage1Env) : Except String Unit × List Ev1 :=
  match env.importBErr with
  | some e => (Except.error e, [Ev1.importB])
  | none =>
    match env.convertBErr with
    | some e => (Except.error e, [Ev1.importB, Ev1.convertB])
    | none => (Except.ok (), [Ev1.importB, Ev1.convertB])

/-- The whole of _convert_onnx_to_saved_model: backend A first, backend B
after any failure inside the backend A block. -/
def stage1 (env : Stage1Env) : Except String Unit × List Ev1 :=
  match env.importAErr with
  | some _ =>
    let r := backendB env
    (r.1, Ev1.importA :: r.2)
  | none =>
    match env.convertAErr with
    | some _ =>
      let r := backendB env
      (r.1, Ev1.importA :: Ev1.convertA :: r.2)
    | none =>
      match env.rerootErr with
      | some _ =>
        let r := backendB env
        (r.1, Ev1.importA :: Ev1.convertA :: Ev1.rerootA :: r.2)
      | none => (Except.ok (), [Ev1.importA, Ev1.convertA, Ev1.rerootA])

/-! ## main of tools/onnx_to_tflite.py

After argument parsing, main checks that the input file exists and
returns 1 if not.  It then prepares the saved-model directory: the one
named by the saved-model-dir flag (created and kept) when that flag is
given, or a fresh temporary directory otherwise.  The try block runs
stage 1 and then the SavedModel-to-TFLite stage; any exception is
caught and mapped to return code 2; the finally block removes the
temporary directory whenever the flag was not given. -/

/-- Events recorded by the full converter entry point. -/
inductive FEv where
  | checkInput
  | mkSavedDir
  | mkTempDir
  | stage1Call
  | stage2Call
  | writeTflite
  | cleanupTemp
deriving DecidableEq

/-- Environment of a full-converter run. -/
structure FullEnv where
  inputExists : Bool
  savedDirGiven : Bool
  s1 : Stage1Env
  stage2Err : Option String
deriving DecidableEq

/-- Observable outcome of a full-converter run: the return code, the
event trace, and the state of the two directories after main returns. -/
structure FullResult where
  exit : Nat
  trace : List FEv
  tempDirLive : Bool
  savedDirLive : Bool
  savedDirFilled : Bool
deriving DecidableEq

/-- The try block of main, entered after the input check and the
directory preparation; tempDirLive is true here because the finally
block has not yet run. -/
def fullTry (env : FullEnv) : FullResult :=
  let mkEv := if env.savedDirGiven then FEv.mkSavedDir else FEv.mkTempDir
  let base : FullResult :=
    { exit := 0
      trace := [FEv.checkInput, mkEv, FEv.stage1Call]
      tempDirLive := !env.savedDirGiven
      savedDirLive := env.savedDirGiven
      savedDirFilled := false }
  match (stage1 env.s1).1 with
  | Except.error _ => { base with exit := 2 }
  | Except.ok () =>
    match env.stage2Err with
    | some _ =>
      { base with
          exit := 2
          trace := base.trace ++ [FEv.stage2Call]
          savedDirFilled := env.savedDirGiven }
    | none =>
      { base with
          exit := 0
          trace := base.trace ++ [FEv.stage2Call, FEv.writeTflite]
          savedDirFilled := env.savedDirGiven }

/-- main of tools/onnx_to_tflite.py. -/
def fullMain (env : FullEnv) : FullResult :=
  if env.inputExists then
    let b := fullTry env
    if env.savedDirGiven then b
    else { b with tempDirLive := false, trace := b.trace ++ [FEv.cleanupTemp] }
  else
    { exit := 1
      trace := [FEv.checkInput]
      tempDirLive := false
      savedDirLive := false
      savedDirFilled := false }

/-! ## tools/onnx_to_tflite_simple.py

main checks the argument count first (returning 1 before touching any
path), then the input file (returning 1 if absent), then creates a
temporary directory with mkdtemp and enters a try block whose finally
clause removes that directory.  Inside the try block: the onnx2tf
importing and conversion (caught, return 2 on failure), the check for the
produced saved_model subdirectory (return 2 if absent), and the
TFLite conversion and output write, which are not guarded by an except
clause, so an exception there propagates out of main. -/

/-- Events recorded by the simple converter. -/
inductive SEv where
  | checkInput
  | mkTemp
  | convertCall
  | tfliteCall
  | writeOutput
  | rmTemp
deriving DecidableEq

/-- Environment of a simple-converter run; argv includes the program
name at position zero. -/
structure SimpleEnv where
  argv : List String
  inputExists : Bool
  importOk : Bool
  convertErr : Option String
  savedModelProduced : Bool
  tfliteErr : Option String
deriving DecidableEq

/-- Outcome of a simple-converter run: Except.ok n means main returned
n, Except.error e means an exception escaped main. -/
structure SimpleResult where
  outcome : Except String Nat
  trace : List SEv
  tempDirLive : Bool

/-- The try block of the simple converter, after mkdtemp. -/
def simpleTry (env : SimpleEnv) : SimpleResult :=
  let base : SimpleResult :=
    { outcome := Except.ok 0
      trace := [SEv.checkInput, SEv.mkTemp]
      tempDirLive := true }
  if env.importOk then
    match env.convertErr with
    | some _ => { base with outcome := Except.ok 2, trace := base.trace ++ [SEv.convertCall] }
    | none =>
      if env.savedModelProduced then
        match env.tfliteErr with
        | some e =>
          { base with
              outcome := Except.error e
              trace := base.trace ++ [SEv.convertCall, SEv.tfliteCall] }
        | none =>
          { base with
              outcome := Except.ok 0
              trace := base.trace ++ [SEv.convertCall, SEv.tfliteCall, SEv.writeOutput] }
      else { base with outcome := Except.ok 2, trace := base.trace ++ [SEv.convertCall] }
  else { base with outcome := Except.ok 2 }

/-- main of tools/onnx_to_tflite_simple.py. -/
def simpleMain (env : SimpleEnv) : SimpleResult :=
  if env.argv.length < 3 then
    { outcome := Except.ok 1, trace := [], tempDirLive := false }
  else if env.inputExists then
    let b := simpleTry env
    { b with tempDirLive := false, trace := b.trace ++ [SEv.rmTemp] }
  else
    { outcome := Except.ok 1, trace := [SEv.checkInput], tempDirLive := false }

/-! ## tools/simplify_model.py

simplify_model loads the model, optionally runs onnx-simplifier (an
ImportError or any other exception there is caught and only reported;
the simplified graph replaces the loaded one only when the call both
succeeds and returns a true check flag), scans the node list for a
fixed denylist of operators, scans every graph input for dynamic
dimensions, and finally saves the model to the output path
unconditionally. -/

/-- Environment of a simplify_model run: whether the load succeeds,
the onnx-simplifier availability and outcome, the operator types of the
graph nodes, and the declared input shapes (name and dim values, a
proto dim with no fixed value carrying its default value 0). -/
structure SimpEnv where
  loadOk : Bool
  onnxsimAvailable : Bool
  simplifyErr : Option String
  simplifyCheck : Bool
  nodeOps : List String
  inputs : List (String × List Int)

/-- What a simplify_model run reports and produces. -/
structure SimpResult where
  usedSimplified : Bool
  problemOps : List String
  dynFlagged : List (String × List Int)
  saved : Bool

/-- The fixed denylist of NNAPI-incompatible operators. -/
def problematicOps : List String :=
  ["GridSample", "NonMaxSuppression", "ScatterElements", "OneHot", "TopK", "RoiAlign"]

/-- The per-dimension normalisation of the shape scan: a positive dim
value is kept, anything else becomes -1. -/
def normDim (d : Int) : Int := if 0 < d then d else -1

/-- A shape is reported as dynamic when the normalised dim list
contains -1. -/
def hasDynDim (dims : List Int) : Bool := (dims.map normDim).contains (-1)

/-- simplify_model of tools/simplify_model.py; a load failure
propagates (the call is not guarded), every later path saves. -/
def simplify_model (env : SimpEnv) : Except String SimpResult :=
  if env.loadOk then
    let used := env.onnxsimAvailable && env.simplifyErr.isNone && env.simplifyCheck
    let found := (env.nodeOps.filter (fun op => problematicOps.contains op)).dedup
    let flagged := env.inputs.filter (fun p => hasDynDim p.2)
    Except.ok
      { usedSimplified := used
        problemOps := found
        dynFlagged := flagged
        saved := true }
  else Except.error "load failed"

/-! ## The operator tally of tools/download_film.py

inspect_saved_model walks the nodes of the graph and builds a dict
from operator type to occurrence count (a Python dict keeps insertion
order), then reports the first twenty entries of the items sorted by
descending count (Python sorted is a stable sort, modelled here by a
stable insertion sort with the same ordering). -/

/-- One step of the dict-building loop: increment the count of op,
appending a fresh entry when the key is new. -/
def bump : List (String × Nat) → String → List (String × Nat)
  | [], op => [(op, 1)]
  | (k, v) :: rest, op =>
    if k = op then (k, v + 1) :: rest else (k, v) :: bump rest op

/-- The operator tally of a node list. -/
def opTally (nodes : List String) : List (String × Nat) :=
  nodes.foldl bump []

/-- Dict lookup in the tally, zero for an absent key. -/
def lookupCount : List (String × Nat) → String → Nat
  | [], _ => 0
  | (a, v) :: rest, k => if a = k then v else lookupCount rest k

/-- Insert one entry into a descending-count list, after every entry of
count at least as large (the placement a stable sort gives). -/
def insertDesc (x : String × Nat) : List (String × Nat) → List (String × Nat)
  | [] => [x]
  | y :: ys => if x.2 ≤ y.2 then y :: insertDesc x ys else x :: y :: ys

/-- Stable sort of the tally by descending count. -/
def sortDesc (l : List (String × Nat)) : List (String × Nat) :=
  l.foldl (fun acc x => insertDesc x acc) []

/-- The reported listing: sorted items, first twenty. -/
def topOps (nodes : List String) : List (String × Nat) :=
  (sortDesc (opTally nodes)).take 20

/-! ## The acquirer operations

download_film_model of tools/download_film.py wraps its whole body in
a try block with except ImportError and except Exception handlers that
print and return None; on success it returns the output directory.
download_raft_lite and create_simple_optical_flow_tflite of
tools/download_optical_flow.py each wrap their body in a try block
with a broad except Exception handler returning None. -/

/-- Environment of download_film_model: the import of tensorflow and
tensorflow_hub, the hub load (with signature access), and the save. -/
structure FilmEnv where
  importErr : Option String
  hubLoadErr : Option String
  saveErr : Option String
deriving DecidableEq

/-- download_film_model of tools/download_film.py. -/
def download_film_model (env : FilmEnv) : Option String :=
  match env.importErr with
  | some _ => none
  | none =>
    match env.hubLoadErr with
    | some _ => none
    | none =>
      match env.saveErr with
      | some _ => none
      | none => some "film_models/film_tfhub"

/-- Environment of download_raft_lite: the torch and urllib imports,
whether the checkpoint file already exists (then the fetch is skipped),
and the fetch itself. -/
structure RaftEnv where
  importErr : Option String
  alreadyDownloaded : Bool
  fetchErr : Option String
deriving DecidableEq

/-- download_raft_lite of tools/download_optical_flow.py. -/
def download_raft_lite (env : RaftEnv) : Option String :=
  match env.importErr with
  | some _ => none
  | none =>
    if env.alreadyDownloaded then some "optical_flow_models/raft_small.pth"
    else
      match env.fetchErr with
      | some _ => none
      | none => some "optical_flow_models/raft_small.pth"

/-- Environment of create_simple_optical_flow_tflite: building the
keras model, the TFLite conversion, and the output write. -/
structure FlowEnv where
  buildErr : Option String
  tfliteErr : Option String
  writeErr : Option String
deriving DecidableEq

/-- create_simple_optical_flow_tflite of tools/download_optical_flow.py. -/
def create_simple_optical_flow_tflite (env : FlowEnv) : Option String :=
  match env.buildErr with
  | some _ => none
  | none =>
    match env.tfliteErr with
    | some _ => none
    | none =>
      match env.writeErr with
      | some _ => none
      | none => some "app/src/main/assets/optical_flow_fp16.tflite"

/-! ## The onnx.mapping compatibility shim of tools/onnx_to_tflite.py

When the installed onnx package no longer provides onnx.mapping, the
backend B path rebuilds the two type tables inline.  The forward table
maps each tensor element type to a numpy dtype; two of its entries
depend on a hasattr probe of the numpy module (uint32 and complex64
degrade to uint64 and complex128 when absent).  The reverse table is a
dict comprehension over the forward table, so a dtype reached by two
tensor types keeps only the later tensor type. -/

/-- The ONNX tensor element types of the shim table. -/
inductive TensorT where
  | FLOAT
  | UINT8
  | INT8
  | UINT16
  | INT16
  | INT32
  | INT64
  | BOOL
  | FLOAT16
  | DOUBLE
  | UINT32
  | UINT64
  | COMPLEX64
  | COMPLEX128
  | STRING
deriving DecidableEq

/-- The numpy dtypes the shim table uses. -/
inductive NpT where
  | float32
  | uint8
  | int8
  | uint16
  | int16
  | int32
  | int64
  | npBool
  | float16
  | float64
  | uint32
  | uint64
  | complex64
  | complex128
  | npObject
deriving DecidableEq

/-- The forward table TENSOR_TYPE_TO_NP_TYPE, in source order, as a
function of the two hasattr probe outcomes. -/
def tensorTypeToNpType (hasUint32 hasComplex64 : Bool) : List (TensorT × NpT) :=
  [ (TensorT.FLOAT, NpT.float32),
    (TensorT.UINT8, NpT.uint8),
    (TensorT.INT8, NpT.int8),
    (TensorT.UINT16, NpT.uint16),
    (TensorT.INT16, NpT.int16),
    (TensorT.INT32, NpT.int32),
    (TensorT.INT64, NpT.int64),
    (TensorT.BOOL, NpT.npBool),
    (TensorT.FLOAT16, NpT.float16),
    (TensorT.DOUBLE, NpT.float64),
    (TensorT.UINT32, if hasUint32 then NpT.uint32 else NpT.uint64),
    (TensorT.UINT64, NpT.uint64),
    (TensorT.COMPLEX64, if hasComplex64 then NpT.complex64 else NpT.complex128),
    (TensorT.COMPLEX128, NpT.complex128),
    (TensorT.STRING, NpT.npObject) ]

/-- Set one key of a dict kept as an association list in insertion
order, overwriting an existing binding in place. -/
def dictSet (d : List (NpT × TensorT)) (k : NpT) (v : TensorT) : List (NpT × TensorT) :=
  if d.any (fun p => p.1 == k) then d.map (fun p => if p.1 == k then (k, v) else p)
  else d ++ [(k, v)]

/-- The reverse table NP_TYPE_TO_TENSOR_TYPE, built as the dict
comprehension over the forward table (later entries win). -/
def npTypeToTensorType (u c : Bool) : List (NpT × TensorT) :=
  (tensorTypeToNpType u c).foldl (fun d p => dictSet d p.2 p.1) []

/-- Dict lookup in the reverse table. -/
def dictGet : List (NpT × TensorT) → NpT → Option TensorT
  | [], _ => none
  | (a, v) :: rest, k => if a = k then some v else dictGet rest k

/-! ## Helper lemmas about the operator tally -/

/-- Bumping key n changes only the count of n, by one. -/
theorem lookupCount_bump (acc : List (String × Nat)) (n k : String) :
    lookupCount (bump acc n) k = lookupCount acc k + (if n = k then 1 else 0) := by
  induction acc with
  | nil => by_cases hnk : n = k <;> simp [bump, lookupCount, hnk]
  | cons p t ih =>
    obtain ⟨a, v⟩ := p
    by_cases han : a = n
    · subst han
      by_cases hak : a = k <;> simp [bump, lookupCount, hak]
    · by_cases hak : a = k
      · subst hak
        have hnk : ¬n = a := fun h => han h.symm
        simp [bump, lookupCount, han, hnk]
      · simp [bump, lookupCount, han, hak, ih]

/-- Folding the dict-building step adds exactly the occurrence counts. -/
theorem lookupCount_foldl_bump (nodes : List String) (acc : List (String × Nat)) (k : String) :
    lookupCount (List.foldl bump acc nodes) k = lookupCount acc k + nodes.count k := by
  induction nodes generalizing acc with
  | nil => simp
  | cons n ns ih =>
    simp only [List.foldl_cons, ih, lookupCount_bump, List.count_cons, beq_iff_eq]
    by_cases hnk : n = k
    · subst hnk; simp; omega
    · have : ¬k = n := fun h => hnk h.symm
      simp [hnk, this]

/-- The tally maps every operator type to its exact number of
occurrences among the nodes. -/
theorem lookupCount_opTally (nodes : List String) (k : String) :
    lookupCount (opTally nodes) k = nodes.count k := by
  simpa [opTally, lookupCount] using lookupCount_foldl_bump nodes [] k

/-- Membership in an insertion adds only the inserted entry. -/
theorem mem_insertDesc {x z : String × Nat} {l : List (String × Nat)}
    (h : z ∈ insertDesc x l) : z = x ∨ z ∈ l := by
  induction l with
  | nil => simpa [insertDesc] using h
  | cons y ys ih =>
    by_cases hc : x.2 ≤ y.2
    · simp only [insertDesc, if_pos hc, List.mem_cons] at h
      rcases h with rfl | h2
      · right; simp
      · rcases ih h2 with rfl | h3
        · left; rfl
        · right; simp [h3]
    · simp only [insertDesc, if_neg hc, List.mem_cons] at h
      rcases h with rfl | h2
      · left; rfl
      · right; simpa using h2

/-- Inserting into a descending list keeps it descending. -/
theorem pairwise_insertDesc (x : String × Nat) (l : List (String × Nat))
    (hl : l.Pairwise (fun a b => b.2 ≤ a.2)) :
    (insertDesc x l).Pairwise (fun a b => b.2 ≤ a.2) := by
  induction l with
  | nil => simp [insertDesc]
  | cons y ys ih =>
    rcases List.pairwise_cons.mp hl with ⟨hy, hys⟩
    by_cases hc : x.2 ≤ y.2
    · simp only [insertDesc, if_pos hc]
      refine List.pairwise_cons.mpr ⟨?_, ih hys⟩
      intro z hz
      rcases mem_insertDesc hz with rfl | h2
      · exact hc
      · exact hy z h2
    · simp only [insertDesc, if_neg hc]
      refine List.pairwise_cons.mpr ⟨?_, hl⟩
      intro z hz
      have hyx : y.2 ≤ x.2 := Nat.le_of_lt (Nat.lt_of_not_le hc)
      rcases List.mem_cons.mp hz with rfl | h2
      · exact hyx
      · exact Nat.le_trans (hy z h2) hyx

/-- The stable sort of the tally is in descending count order. -/
theorem pairwise_sortDesc (l : List (String × Nat)) :
    (sortDesc l).Pairwise (fun a b => b.2 ≤ a.2) := by
  have key : ∀ acc : List (String × Nat), acc.Pairwise (fun a b => b.2 ≤ a.2) →
      (List.foldl (fun acc x => insertDesc x acc) acc l).Pairwise (fun a b => b.2 ≤ a.2) := by
    induction l with
    | nil => intro acc hacc; simpa using hacc
    | cons y ys ih =>
      intro acc hacc
      exact ih (insertDesc y acc) (pairwise_insertDesc y acc hacc)
  simpa [sortDesc] using key [] (by simp)

/-- On a graph whose three nodes carry the types A, A, B in any order,
the tally dict is one of the two key orders with the exact counts. -/
theorem opTally_of_perm_AAB (A B : String) (hne : A ≠ B) (nodes : List String)
    (hp : List.Perm nodes [A, A, B]) :
    opTally nodes = [(A, 2), (B, 1)] ∨ opTally nodes = [(B, 1), (A, 2)] := by
  have hlen : nodes.length = 3 := by simpa using hp.length_eq
  have hcA : nodes.count A = 2 := by
    rw [hp.count_eq]; simp [List.count_cons, hne, Ne.symm hne]
  have hcB : nodes.count B = 1 := by
    rw [hp.count_eq]; simp [List.count_cons, hne, Ne.symm hne]
  rcases nodes with _ | ⟨a, _ | ⟨b, _ | ⟨c, _ | ⟨d, t⟩⟩⟩⟩ <;> simp at hlen
  have ha : a = A ∨ a = B := by
    have h1 : a ∈ [A, A, B] := hp.subset (by simp)
    simp at h1; tauto
  have hb : b = A ∨ b = B := by
    have h1 : b ∈ [A, A, B] := hp.subset (by simp)
    simp at h1; tauto
  have hc : c = A ∨ c = B := by
    have h1 : c ∈ [A, A, B] := hp.subset (by simp)
    simp at h1; tauto
  rcases ha with rfl | rfl <;> rcases hb with rfl | rfl <;> rcases hc with rfl | rfl <;>
    simp_all [opTally, bump, List.count_cons, beq_iff_eq, hne, Ne.symm hne]

/-- Claim C5: for every graph whose nodes have operator types A, A, B,
the tally maps A to 2 and B to 1 and nothing else, the reported listing
is [(A, 2), (B, 1)], in descending count order with A before B; and in
general the tally maps each operator type to its exact number of
occurrences among the nodes. -/
theorem C5_operator_tally (A B : String) (hne : A ≠ B) (nodes : List String)
    (hp : List.Perm nodes [A, A, B]) :
    lookupCount (opTally nodes) A = 2 ∧
    lookupCount (opTally nodes) B = 1 ∧
    (∀ p ∈ opTally nodes, p.1 = A ∨ p.1 = B) ∧
    topOps nodes = [(A, 2), (B, 1)] ∧
    (topOps nodes).Pairwise (fun x y => y.2 ≤ x.2) ∧
    (∀ ns : List String, ∀ op : String, lookupCount (opTally ns) op = ns.count op) := by
  have key := opTally_of_perm_AAB A B hne nodes hp
  have h4 : topOps nodes = [(A, 2), (B, 1)] := by
    rcases key with h | h <;> simp [topOps, h, sortDesc, insertDesc]
  refine ⟨?_, ?_, ?_, h4, ?_, fun ns op => lookupCount_opTally ns op⟩
  · rcases key with h | h <;> simp [h, lookupCount, hne, Ne.symm hne]
  · rcases key with h | h <;> simp [h, lookupCount, hne, Ne.symm hne]
  · intro p hmem
    rcases key with h | h <;> rw [h] at hmem <;> simp at hmem <;>
      rcases hmem with h2 | h2 <;> simp [h2]
  · rw [h4]; simp

/-- Witness for claim C5 at a concrete graph. -/
theorem C5_operator_tally_witness :
    topOps ["Conv", "Conv", "Add"] = [("Conv", 2), ("Add", 1)] :=
  (C5_operator_tally "Conv" "Add" (by decide) ["Conv", "Conv", "Add"] (by decide)).2.2.2.1

/-! ## The remaining claims -/

/-- Claim C1: an invocation of either converter entry point whose input
ONNX path does not name an existing file returns exit code 1 and
attempts no backend conversion call: neither the ONNX-to-SavedModel
stage nor the SavedModel-to-TFLite stage appears in the trace. -/
theorem C1_input_not_found (fe : FullEnv) (se : SimpleEnv)
    (hf : fe.inputExists = false) (hs : se.inputExists = false)
    (hargs : 3 ≤ se.argv.length) :
    (fullMain fe).exit = 1 ∧
    FEv.stage1Call ∉ (fullMain fe).trace ∧
    FEv.stage2Call ∉ (fullMain fe).trace ∧
    (simpleMain se).outcome = Except.ok 1 ∧
    SEv.convertCall ∉ (simpleMain se).trace ∧
    SEv.tfliteCall ∉ (simpleMain se).trace := by
  have h3 : ¬se.argv.length < 3 := by omega
  simp [fullMain, simpleMain, hf, hs, h3]

/-- Witness for claim C1 at concrete environments. -/
theorem C1_witness :
    (fullMain ⟨false, false, ⟨none, none, none, none, none⟩, none⟩).exit = 1 ∧
    (simpleMain ⟨["prog", "in.onnx", "out.tflite"], false, true, none, true,
      none⟩).outcome = Except.ok 1 := by
  have h := C1_input_not_found ⟨false, false, ⟨none, none, none, none, none⟩, none⟩
    ⟨["prog", "in.onnx", "out.tflite"], false, true, none, true, none⟩ rfl rfl (by decide)
  exact ⟨h.1, h.2.2.2.1⟩

/-- Claim C2: when the import of backend A raises, or the backend A
conversion call raises, stage 1 attempts backend B; the fallback order
is fixed: the backend A import is always the first event, every fatal
stage outcome is preceded by a backend B attempt, and backend B is
never attempted when the whole backend A block succeeds. -/
theorem C2_fallback_order (env : Stage1Env)
    (h : env.importAErr.isSome = true ∨ env.convertAErr.isSome = true) :
    Ev1.importB ∈ (stage1 env).2 ∧
    (∀ env2 : Stage1Env, ((stage1 env2).2).head? = some Ev1.importA) ∧
    (∀ env2 : Stage1Env, ∀ e : String, (stage1 env2).1 = Except.error e →
      Ev1.importB ∈ (stage1 env2).2) ∧
    (∀ env2 : Stage1Env, env2.importAErr = none → env2.convertAErr = none →
      env2.rerootErr = none → Ev1.importB ∉ (stage1 env2).2) := by
  refine ⟨?_, ?_, ?_, ?_⟩
  · obtain ⟨ia, ca, ra, ib, cb⟩ := env
    rcases ia with _ | e1 <;> rcases ca with _ | e2 <;> rcases ra with _ | e3 <;>
      rcases ib with _ | e4 <;> rcases cb with _ | e5 <;>
      simp_all [stage1, backendB]
  · intro env2
    obtain ⟨ia, ca, ra, ib, cb⟩ := env2
    rcases ia with _ | e1 <;> rcases ca with _ | e2 <;> rcases ra with _ | e3 <;>
      rcases ib with _ | e4 <;> rcases cb with _ | e5 <;>
      simp [stage1, backendB]
  · intro env2 e he
    obtain ⟨ia, ca, ra, ib, cb⟩ := env2
    rcases ia with _ | e1 <;> rcases ca with _ | e2 <;> rcases ra with _ | e3 <;>
      rcases ib with _ | e4 <;> rcases cb with _ | e5 <;>
      simp_all [stage1, backendB]
  · intro env2 h1 h2 h3
    obtain ⟨ia, ca, ra, ib, cb⟩ := env2
    simp only at h1 h2 h3
    subst h1; subst h2; subst h3
    simp [stage1, backendB]

/-- Witness for claim C2: a failing backend A import leads to a
backend B attempt. -/
theorem C2_witness :
    Ev1.importB ∈ (stage1 ⟨some "import error", none, none, none, none⟩).2 :=
  (C2_fallback_order ⟨some "import error", none, none, none, none⟩ (Or.inl rfl)).1

/-- Claim C3: with the saved-model-dir flag unset, the temporary
intermediate directory no longer exists once the full converter
returns, both on return 0 and on return 2; the simple converter gives
the same guarantee for its temporary directory. -/
theorem C3_temp_cleanup (fe : FullEnv) (se : SimpleEnv)
    (hf : fe.savedDirGiven = false)
    (_hfe : (fullMain fe).exit = 0 ∨ (fullMain fe).exit = 2)
    (_hse : (simpleMain se).outcome = Except.ok 0 ∨ (simpleMain se).outcome = Except.ok 2) :
    (fullMain fe).tempDirLive = false ∧ (simpleMain se).tempDirLive = false := by
  constructor
  · by_cases hin : fe.inputExists <;> simp [fullMain, hin, hf]
  · by_cases h3 : se.argv.length < 3
    · simp [simpleMain, h3]
    · by_cases hin : se.inputExists <;> simp [simpleMain, h3, hin]

/-- Witness for claim C3 at concrete successful runs. -/
theorem C3_witness :
    (fullMain ⟨true, false, ⟨none, none, none, none, none⟩, none⟩).tempDirLive = false ∧
    (simpleMain ⟨["prog", "a.onnx", "b.tflite"], true, true, none, true,
      none⟩).tempDirLive = false :=
  C3_temp_cleanup _ _ rfl (Or.inl rfl) (Or.inl rfl)

/-- Claim C4: with the saved-model-dir flag set, the directory exists
and is non-empty after a run returning 0, and still exists after a run
returning 2. -/
theorem C4_saved_dir_preserved (env : FullEnv) (hg : env.savedDirGiven = true) :
    ((fullMain env).exit = 0 →
      (fullMain env).savedDirLive = true ∧ (fullMain env).savedDirFilled = true) ∧
    ((fullMain env).exit = 2 → (fullMain env).savedDirLive = true) := by
  by_cases hin : env.inputExists
  · rcases hs : (stage1 env.s1).1 with e | u <;>
      rcases h2 : env.stage2Err with _ | e2 <;>
      simp [fullMain, fullTry, hin, hg, hs, h2]
  · simp [fullMain, hin]

/-- Witness for claim C4 at a concrete successful run. -/
theorem C4_witness :
    (fullMain ⟨true, true, ⟨none, none, none, none, none⟩, none⟩).savedDirLive = true ∧
    (fullMain ⟨true, true, ⟨none, none, none, none, none⟩, none⟩).savedDirFilled = true :=
  (C4_saved_dir_preserved ⟨true, true, ⟨none, none, none, none, none⟩, none⟩ rfl).1 rfl

/-- A normalised dim equals -1 exactly when the declared value is -1 or
not positive. -/
theorem normDim_eq_neg_one (d : Int) : normDim d = -1 ↔ (d = -1 ∨ ¬0 < d) := by
  by_cases h : 0 < d <;> simp [normDim, h]

/-- The simplifier result record a successful run produces. -/
def simpOutcome (env : SimpEnv) : SimpResult :=
  { usedSimplified := env.onnxsimAvailable && env.simplifyErr.isNone && env.simplifyCheck
    problemOps := (env.nodeOps.filter (fun op => problematicOps.contains op)).dedup
    dynFlagged := env.inputs.filter (fun p => hasDynDim p.2)
    saved := true }

/-- On a loadable model, simplify_model returns its outcome record. -/
theorem simplify_model_ok (env : SimpEnv) (h : env.loadOk = true) :
    simplify_model env = Except.ok (simpOutcome env) := by
  simp [simplify_model, simpOutcome, h]

/-- The dynamic-shape scan fires exactly on a dim that is -1 or has no
positive fixed value. -/
theorem hasDynDim_iff (dims : List Int) :
    hasDynDim dims = true ↔ ∃ d ∈ dims, d = -1 ∨ ¬0 < d := by
  simp only [hasDynDim, List.contains_eq_any_beq, List.any_eq_true, List.mem_map]
  constructor
  · rintro ⟨x, ⟨d, hd, rfl⟩, hbeq⟩
    exact ⟨d, hd, (normDim_eq_neg_one d).mp (Eq.symm (by simpa using hbeq))⟩
  · rintro ⟨d, hd, hcond⟩
    exact ⟨normDim d, ⟨d, hd, rfl⟩, by simp [(normDim_eq_neg_one d).mpr hcond]⟩

/-- Claim C6: the simplifier flags exactly the graph inputs whose
declared shape contains a dimension with value -1 or with no positive
fixed value; an input with all-positive dimensions is not flagged. -/
theorem C6_dynamic_dims (env : SimpEnv) (h : env.loadOk = true) :
    ∃ r : SimpResult, simplify_model env = Except.ok r ∧
      ∀ p ∈ env.inputs, (p ∈ r.dynFlagged ↔ ∃ d ∈ p.2, d = -1 ∨ ¬0 < d) := by
  refine ⟨simpOutcome env, simplify_model_ok env h, ?_⟩
  intro p hp
  constructor
  · intro hmem
    exact (hasDynDim_iff p.2).mp (List.mem_filter.mp hmem).2
  · intro hex
    exact List.mem_filter.mpr ⟨hp, (hasDynDim_iff p.2).mpr hex⟩

/-- Witness for claim C6 at a concrete model with one dynamic and one
static input. -/
theorem C6_witness :
    ∃ r : SimpResult,
      simplify_model ⟨true, true, none, true, [],
        [("x", [1, -1]), ("y", [2, 3])]⟩ = Except.ok r ∧
      ∀ p ∈ ([("x", [1, -1]), ("y", [2, 3])] : List (String × List Int)),
        (p ∈ r.dynFlagged ↔ ∃ d ∈ p.2, d = -1 ∨ ¬0 < d) :=
  C6_dynamic_dims ⟨true, true, none, true, [], [("x", [1, -1]), ("y", [2, 3])]⟩ rfl

/-- Counterexample to claim C7 as stated: under the probe outcome where
the numpy module lacks uint32, the forward table sends UINT32 to the
uint64 dtype, and looking that dtype up in the reverse table yields
UINT64, not UINT32, so the round trip fails for that outcome. -/
theorem C7_counterexample :
    (TensorT.UINT32, NpT.uint64) ∈ tensorTypeToNpType false true ∧
    dictGet (npTypeToTensorType false true) NpT.uint64 = some TensorT.UINT64 ∧
    TensorT.UINT64 ≠ TensorT.UINT32 := by decide

/-- Claim C7 amended: when both dtype-availability probes succeed, the
two shim tables are mutually inverse (every entry of the forward table
round-trips to its tensor type through the reverse table); under every
probe outcome the round trip holds for every entry except the shadowed
type under its own failed probe, so UINT32 still round-trips whenever
the uint32 probe succeeds and COMPLEX64 whenever the complex64 probe
succeeds; and under a failed probe the shadowed type degrades: UINT32
reaches the uint64 dtype whose reverse lookup yields UINT64, and
COMPLEX64 reaches the complex128 dtype whose reverse lookup yields
COMPLEX128. -/
theorem C7_shim_roundtrip :
    (∀ p ∈ tensorTypeToNpType true true,
      dictGet (npTypeToTensorType true true) p.2 = some p.1) ∧
    (∀ u c : Bool, ∀ p ∈ tensorTypeToNpType u c,
      (p.1 = TensorT.UINT32 → u = true) → (p.1 = TensorT.COMPLEX64 → c = true) →
      dictGet (npTypeToTensorType u c) p.2 = some p.1) ∧
    (∀ c : Bool, (TensorT.UINT32, NpT.uint64) ∈ tensorTypeToNpType false c ∧
      dictGet (npTypeToTensorType false c) NpT.uint64 = some TensorT.UINT64) ∧
    (∀ u : Bool, (TensorT.COMPLEX64, NpT.complex128) ∈ tensorTypeToNpType u false ∧
      dictGet (npTypeToTensorType u false) NpT.complex128 = some TensorT.COMPLEX128) := by
  decide

/-- Witness for claim C7: UINT32 round-trips at the probe outcome where
uint32 is available but complex64 is not. -/
theorem C7_witness :
    dictGet (npTypeToTensorType true false) NpT.uint32 = some TensorT.UINT32 :=
  C7_shim_roundtrip.2.1 true false (TensorT.UINT32, NpT.uint32)
    (by decide) (by decide) (by decide)

/-- Claim C8: for every model the simplifier can load, a model is
written to the output path whatever the diagnostics find. -/
theorem C8_always_saves (env : SimpEnv) (h : env.loadOk = true) :
    ∃ r : SimpResult, simplify_model env = Except.ok r ∧ r.saved = true :=
  ⟨simpOutcome env, simplify_model_ok env h, rfl⟩

/-- Witness for claim C8: the simplification pass is unavailable and a
denylisted operator and a dynamic dim are present, yet the model is
saved. -/
theorem C8_witness :
    ∃ r : SimpResult,
      simplify_model ⟨true, false, none, false, ["GridSample"], [("x", [-1])]⟩ =
        Except.ok r ∧ r.saved = true :=
  C8_always_saves ⟨true, false, none, false, ["GridSample"], [("x", [-1])]⟩ rfl

/-- Claim C9: each acquirer operation returns none when any exception
arises on its executed path, and returns the produced artifact path
when none does. -/
theorem C9_acquirer_sentinel (fe : FilmEnv) (re : RaftEnv) (ce : FlowEnv) :
    ((fe.importErr.isSome = true ∨ fe.hubLoadErr.isSome = true ∨
        fe.saveErr.isSome = true) → download_film_model fe = none) ∧
    (fe.importErr = none → fe.hubLoadErr = none → fe.saveErr = none →
      download_film_model fe = some "film_models/film_tfhub") ∧
    ((re.importErr.isSome = true ∨
        (re.alreadyDownloaded = false ∧ re.fetchErr.isSome = true)) →
      download_raft_lite re = none) ∧
    (re.importErr = none → (re.alreadyDownloaded = true ∨ re.fetchErr = none) →
      download_raft_lite re = some "optical_flow_models/raft_small.pth") ∧
    ((ce.buildErr.isSome = true ∨ ce.tfliteErr.isSome = true ∨
        ce.writeErr.isSome = true) → create_simple_optical_flow_tflite ce = none) ∧
    (ce.buildErr = none → ce.tfliteErr = none → ce.writeErr = none →
      create_simple_optical_flow_tflite ce =
        some "app/src/main/assets/optical_flow_fp16.tflite") := by
  obtain ⟨f1, f2, f3⟩ := fe
  obtain ⟨r1, r2, r3⟩ := re
  obtain ⟨c1, c2, c3⟩ := ce
  refine ⟨?_, ?_, ?_, ?_, ?_, ?_⟩
  · rcases f1 with _ | e1 <;> rcases f2 with _ | e2 <;> rcases f3 with _ | e3 <;>
      simp [download_film_model]
  · rcases f1 with _ | e1 <;> rcases f2 with _ | e2 <;> rcases f3 with _ | e3 <;>
      simp [download_film_model]
  · rcases r1 with _ | e1 <;> cases r2 <;> rcases r3 with _ | e3 <;>
      simp [download_raft_lite]
  · rcases r1 with _ | e1 <;> cases r2 <;> rcases r3 with _ | e3 <;>
      simp [download_raft_lite]
  · rcases c1 with _ | e1 <;> rcases c2 with _ | e2 <;> rcases c3 with _ | e3 <;>
      simp [create_simple_optical_flow_tflite]
  · rcases c1 with _ | e1 <;> rcases c2 with _ | e2 <;> rcases c3 with _ | e3 <;>
      simp [create_simple_optical_flow_tflite]

/-- Witness for claim C9 at concrete environments: a failing import
yields none, a clean fetch yields the checkpoint path, a failing write
yields none. -/
theorem C9_witness :
    download_film_model ⟨some "no tensorflow", none, none⟩ = none ∧
    download_raft_lite ⟨none, false, none⟩ = some "optical_flow_models/raft_small.pth" ∧
    create_simple_optical_flow_tflite ⟨none, none, some "disk full"⟩ = none := by
  have h := C9_acquirer_sentinel ⟨some "no tensorflow", none, none⟩ ⟨none, false, none⟩
    ⟨none, none, some "disk full"⟩
  exact ⟨h.1 (Or.inl rfl), h.2.2.2.1 rfl (Or.inr rfl),
    h.2.2.2.2.1 (Or.inr (Or.inr rfl))⟩

/-- Claim C10: the simple converter invoked with fewer than two
positional arguments returns 1, the same code as for a missing input
file, and its trace is empty: no filesystem path is examined, created
or deleted. -/
theorem C10_missing_args (env : SimpleEnv) (h : env.argv.length < 3) :
    (simpleMain env).outcome = Except.ok 1 ∧
    (simpleMain env).trace = [] ∧
    (∀ env2 : SimpleEnv, 3 ≤ env2.argv.length → env2.inputExists = false →
      (simpleMain env2).outcome = Except.ok 1) := by
  refine ⟨by simp [simpleMain, h], by simp [simpleMain, h], ?_⟩
  intro env2 h2 hin
  have h3 : ¬env2.argv.length < 3 := by omega
  simp [simpleMain, h3, hin]

/-- Witness for claim C10 at a concrete one-element argv. -/
theorem C10_witness :
    (simpleMain ⟨["onnx_to_tflite_simple.py"], true, true, none, true,
      none⟩).outcome = Except.ok 1 ∧
    (simpleMain ⟨["onnx_to_tflite_simple.py"], true, true, none, true,
      none⟩).trace = [] := by
  have h := C10_missing_args ⟨["onnx_to_tflite_simple.py"], true, true, none, true, none⟩
    (by decide)
  exact ⟨h.1, h.2.1⟩

end Spec2Proof
